import Mathlib

/-
Verification of the hub-cluster-controller reconciliation core
(pkg/cluster/controller.go) against its natural-language specification.

The Go controller is shallowly embedded: the two informer event filters and
queue-key functions become pure Lean functions over a metadata record, and the
`sync` method becomes a pure function from an environment (the results of the
lister lookups and the outcomes of the write calls, which in Go are supplied
by the cluster/work listers and the work client) to the list of write calls it
issues plus its final outcome (returned error, success, or a nil-pointer
panic).  Functions of this repository that are referenced by controller.go but
whose defining file is not part of the provided sources (the manifest-work
builders, `EnsureManifestWork`, and the two name-suffix constants) are
modelled from the specification and marked as such in their doc comments.
-/

namespace HubCluster

/-- Result of a lister `Get` call: the object, a not-found error (carrying the
error's message, as Go not-found errors are ordinary non-nil errors), or any
other error. -/
inductive GetResult (α : Type) where
  | found : α → GetResult α
  | notFound : String → GetResult α
  | failed : String → GetResult α
deriving DecidableEq

/-- One status-feedback value of a manifest (`work.Status.ResourceStatus.
Manifests[i].StatusFeedbacks.Values[j]`): a name and the `Value.String`
field, which in Go is a `*string` and may therefore be nil (`none`). -/
structure FeedbackValue where
  name : String
  value : Option String
deriving DecidableEq

/-- Per-manifest status entry: the manifest's `ResourceMeta.Kind` and its
feedback values. -/
structure ManifestCondition where
  kind : String
  values : List FeedbackValue
deriving DecidableEq

/-- A ManifestWork as the controller uses it: identity, the optimistic
concurrency token, the authored payload (opaque to the controller, collapsed
to one field), and the per-manifest status feedback. -/
structure ManifestWork where
  name : String
  ns : String
  resourceVersion : String
  spec : String
  manifests : List ManifestCondition
deriving DecidableEq

/-- A ManagedCluster as `sync` uses it: its name and its annotations map,
which in Go may be nil (`none`) and is consulted for the "mch" key. -/
structure ManagedCluster where
  name : String
  annotations : Option (List (String × String))
deriving DecidableEq

/-- Generic object metadata as obtained from `meta.Accessor`: name, namespace
and labels.  An event object on which `meta.Accessor` fails is represented as
`none` at the call sites below. -/
structure MetaObject where
  name : String
  ns : String
  labels : List (String × String)
deriving DecidableEq

/-- Go map lookup `labels[k]`, returning the empty string when absent. -/
def getLabel (labels : List (String × String)) (k : String) : String :=
  (labels.lookup k).getD ""

/-- Modelled from the spec: the Stage-1 name suffix constant
`HOH_HUB_CLUSTER_SUBSCRIPTION` (the spec's `SubscriptionSuffix`), defined in a
repository file not among the provided sources.  Its concrete value is
irrelevant to every claim; only its identity as a fixed suffix matters. -/
def HOH_HUB_CLUSTER_SUBSCRIPTION : String := "hoh-hub-cluster-subscription"

/-- Modelled from the spec: the Stage-2 name suffix constant
`HOH_HUB_CLUSTER_MCH` (the spec's `MCHSuffix`), defined in a repository file
not among the provided sources. -/
def HOH_HUB_CLUSTER_MCH : String := "hoh-hub-cluster-mch"

/-- Admission predicate of the ManagedCluster informer (controller.go:50-61):
reject on accessor failure, on label `hoh == disabled`, or on name
`local-cluster`; admit everything else. -/
def clusterFilter : Option MetaObject → Bool
  | none => false
  | some a =>
    if getLabel a.labels "hoh" == "disabled" || a.name == "local-cluster" then false
    else true

/-- Queue-key function of the ManagedCluster informer (controller.go:46-49):
the object's name. -/
def clusterQueueKey (a : MetaObject) : String := a.name

/-- Admission predicate of the ManifestWork informer (controller.go:67-78):
reject on accessor failure; admit exactly the two names this controller
owns in the object's namespace. -/
def workFilter : Option MetaObject → Bool
  | none => false
  | some a =>
    if a.name == a.ns ++ "-" ++ HOH_HUB_CLUSTER_SUBSCRIPTION ||
        a.name == a.ns ++ "-" ++ HOH_HUB_CLUSTER_MCH then true
    else false

/-- Queue-key function of the ManifestWork informer (controller.go:63-66):
the object's namespace. -/
def workQueueKey (a : MetaObject) : String := a.ns

/-- Composition performed by the factory for the cluster informer: run the
filter; only when it admits, derive and enqueue the key. -/
def clusterEnqueue (obj : Option MetaObject) : Option String :=
  if clusterFilter obj then obj.map clusterQueueKey else none

/-- Composition performed by the factory for the work informer. -/
def workEnqueue (obj : Option MetaObject) : Option String :=
  if workFilter obj then obj.map workQueueKey else none

/-- C6: membership admission — a membership change notification is rejected
(no key enqueued) exactly when its "hoh" label equals "disabled" or its name
equals "local-cluster"; every other membership object is admitted with key
equal to its name.  (An object whose metadata accessor fails, `none` here, is
additionally rejected.) -/
theorem membership_admission :
    (∀ a : MetaObject,
      clusterEnqueue (some a) =
        if getLabel a.labels "hoh" = "disabled" ∨ a.name = "local-cluster" then none
        else some a.name) ∧
    clusterEnqueue none = none := by
  refine ⟨fun a => ?_, rfl⟩
  by_cases h : getLabel a.labels "hoh" = "disabled" ∨ a.name = "local-cluster"
  · rw [if_pos h]
    rcases h with h' | h' <;>
      simp [clusterEnqueue, clusterFilter, clusterQueueKey, h']
  · push_neg at h
    simp [clusterEnqueue, clusterFilter, clusterQueueKey, h.1, h.2]

/-- C5: work-object admission and key derivation — a work-object change
notification is enqueued if and only if the object's name equals
`<namespace>-<SubscriptionSuffix>` or `<namespace>-<MCHSuffix>`, the emitted
key is the object's namespace, and an object whose metadata accessor fails
(`none`) is rejected rather than errored. -/
theorem work_admission :
    (∀ a : MetaObject,
      workEnqueue (some a) =
        if a.name = a.ns ++ "-" ++ HOH_HUB_CLUSTER_SUBSCRIPTION ∨
            a.name = a.ns ++ "-" ++ HOH_HUB_CLUSTER_MCH then some a.ns
        else none) ∧
    workEnqueue none = none := by
  refine ⟨fun a => ?_, rfl⟩
  by_cases h : a.name = a.ns ++ "-" ++ HOH_HUB_CLUSTER_SUBSCRIPTION ∨
      a.name = a.ns ++ "-" ++ HOH_HUB_CLUSTER_MCH
  · rw [if_pos h]
    rcases h with h' | h' <;>
      simp [workEnqueue, workFilter, workQueueKey, h']
  · push_neg at h
    simp [workEnqueue, workFilter, workQueueKey, h.1, h.2]

/-- Modelled from the spec: `CreateSubManifestwork` (DesiredStateBuilder for
Stage 1), whose defining file is not among the provided sources.  Per the
spec it is deterministic and pure, names the object
`<clusterName>-<SubscriptionSuffix>` in namespace `<clusterName>`, and its
payload (opaque to the core) is some fixed subscription content; a freshly
built object carries no resource version and no status. -/
def CreateSubManifestwork (clusterName : String) : ManifestWork :=
  { name := clusterName ++ "-" ++ HOH_HUB_CLUSTER_SUBSCRIPTION
    ns := clusterName
    resourceVersion := ""
    spec := "hub-subscription-payload"
    manifests := [] }

/-- Modelled from the spec: `CreateMCHManifestwork` (DesiredStateBuilder for
Stage 2), whose defining file is not among the provided sources.  Per the
spec it is deterministic, takes the optional override from the membership
annotation (empty means default content), and may fail on a malformed
override — modelled by one sentinel override value that is rejected. -/
def CreateMCHManifestwork (clusterName userDefinedMCH : String) :
    Except String ManifestWork :=
  if userDefinedMCH = "not-a-valid-mch" then
    Except.error "failed to unmarshal user defined MCH"
  else
    Except.ok
      { name := clusterName ++ "-" ++ HOH_HUB_CLUSTER_MCH
        ns := clusterName
        resourceVersion := ""
        spec := if userDefinedMCH = "" then "default-mch-payload" else userDefinedMCH
        manifests := [] }

/-- Modelled from the spec: `EnsureManifestWork` (the EnsureEngine), whose
defining file is not among the provided sources.  Its call sites in
controller.go show the signature `(existing, desired) -> (bool, error)`.  Per
the spec it compares only the authored payload, never system-managed fields
such as resource version or status, and reports whether a write is needed. -/
def EnsureManifestWork (existing desired : ManifestWork) : Except String Bool :=
  Except.ok (existing.spec != desired.spec)

/-- A write call issued by `sync` through the work client, carrying the full
object passed to the call. -/
inductive Action where
  | createSub : ManifestWork → Action
  | updateSub : ManifestWork → Action
  | createMCH : ManifestWork → Action
  | updateMCH : ManifestWork → Action
deriving DecidableEq

/-- Whether a write call targets the Stage-2 (MCH) work object. -/
def isStage2 : Action → Bool
  | Action.createMCH _ => true
  | Action.updateMCH _ => true
  | _ => false

/-- How one invocation of `sync` terminates: normal return of nil, return of
a non-nil error (carrying its message), or a runtime panic (the nil `*string`
dereference at controller.go:128). -/
inductive SyncOutcome where
  | ok : SyncOutcome
  | errored : String → SyncOutcome
  | panicked : SyncOutcome
deriving DecidableEq

/-- Observable result of one invocation of `sync`: the write calls issued, in
order, the termination outcome, and the controller's comparison cache as it
stands afterwards. -/
structure SyncResult where
  actions : List Action
  outcome : SyncOutcome
  cache : List String
deriving DecidableEq

/-- The environment one invocation of `sync` runs against: the queue key and
the results the listers and the work client would supply.  Each `...Err`
field is the error (if any) the corresponding write call would return. -/
structure SyncEnv where
  clusterName : String
  clusterResult : GetResult ManagedCluster
  subResult : GetResult ManifestWork
  mchResult : GetResult ManifestWork
  createSubErr : Option String
  updateSubErr : Option String
  createMCHErr : Option String
  updateMCHErr : Option String
deriving DecidableEq

/-- The user-defined MCH override read by sync (controller.go:130-133): empty
unless the cluster's annotations map is non-nil and then its "mch" entry
(empty string when the key is absent, as in Go). -/
def userMCH (managedCluster : ManagedCluster) : String :=
  match managedCluster.annotations with
  | none => ""
  | some anns => (anns.lookup "mch").getD ""

/-- Outcome of the stage-2 gate scan over the Stage-1 status
(controller.go:125-128): a match on `state == "AtLatestKnown"`, a nil-pointer
panic on dereferencing a nil `Value.String` of a value named "state", or
completion without a match. -/
inductive GateScan where
  | matched : GateScan
  | fault : GateScan
  | noMatch : GateScan
deriving DecidableEq

/-- Inner loop of the gate (controller.go:127-128) over the feedback values
of one Subscription-kind manifest.  `value.Name == "state"` is checked first;
only then is `*value.Value.String` dereferenced — a nil pointer there
panics — and compared against "AtLatestKnown". -/
def scanFeedback : List FeedbackValue → GateScan
  | [] => GateScan.noMatch
  | v :: rest =>
    if v.name == "state" then
      match v.value with
      | none => GateScan.fault
      | some s => if s == "AtLatestKnown" then GateScan.matched else scanFeedback rest
    else scanFeedback rest

/-- Outer loop of the gate (controller.go:125-126) over the status manifests;
manifests whose kind is not "Subscription" are skipped entirely. -/
def scanManifests : List ManifestCondition → GateScan
  | [] => GateScan.noMatch
  | c :: rest =>
    if c.kind == "Subscription" then
      match scanFeedback c.values with
      | GateScan.matched => GateScan.matched
      | GateScan.fault => GateScan.fault
      | GateScan.noMatch => scanManifests rest
    else scanManifests rest

/-- Stage-2 body of `sync` (controller.go:129-164), entered when the gate
matched.  Builds the desired MCH work, then looks up the existing one.  Note
the faithful rendering of controller.go:139-150: in the not-found branch the
create call's error shadows the lookup error, so after a successful create
the non-nil not-found lookup error is what `if err != nil` returns. -/
def stage2Run (cache : List String) (env : SyncEnv)
    (managedCluster : ManagedCluster) (pre : List Action) : SyncResult :=
  match CreateMCHManifestwork env.clusterName (userMCH managedCluster) with
  | Except.error e => ⟨pre, SyncOutcome.errored e, cache⟩
  | Except.ok desiredMCH =>
    match env.mchResult with
    | GetResult.notFound msg =>
      match env.createMCHErr with
      | some e => ⟨pre ++ [Action.createMCH desiredMCH], SyncOutcome.errored e, cache⟩
      | none => ⟨pre ++ [Action.createMCH desiredMCH], SyncOutcome.errored msg, cache⟩
    | GetResult.failed e => ⟨pre, SyncOutcome.errored e, cache⟩
    | GetResult.found mch =>
      match EnsureManifestWork mch desiredMCH with
      | Except.error e => ⟨pre, SyncOutcome.errored e, cache⟩
      | Except.ok updated =>
        if updated then
          match env.updateMCHErr with
          | some e =>
            ⟨pre ++ [Action.updateMCH { desiredMCH with resourceVersion := mch.resourceVersion }],
              SyncOutcome.errored e, cache⟩
          | none =>
            ⟨pre ++ [Action.updateMCH { desiredMCH with resourceVersion := mch.resourceVersion }],
              SyncOutcome.ok, cache⟩
        else ⟨pre, SyncOutcome.ok, cache⟩

/-- Continuation of `sync` after the Stage-1 handling (controller.go:125-170):
scan the status of the Stage-1 object as read earlier in this invocation;
on a match run stage 2, on a nil dereference panic, otherwise return nil. -/
def afterStage1 (cache : List String) (env : SyncEnv)
    (managedCluster : ManagedCluster) (subscription : ManifestWork)
    (pre : List Action) : SyncResult :=
  match scanManifests subscription.manifests with
  | GateScan.matched => stage2Run cache env managedCluster pre
  | GateScan.fault => ⟨pre, SyncOutcome.panicked, cache⟩
  | GateScan.noMatch => ⟨pre, SyncOutcome.ok, cache⟩

/-- The `sync` method (controller.go:83-171).  `cache` is the controller's
`c.cache` field, present so that its (non-)use is part of the embedding. -/
def sync (cache : List String) (env : SyncEnv) : SyncResult :=
  match env.clusterResult with
  | GetResult.notFound _ => ⟨[], SyncOutcome.ok, cache⟩
  | GetResult.failed e => ⟨[], SyncOutcome.errored e, cache⟩
  | GetResult.found managedCluster =>
    let desiredSubscription := CreateSubManifestwork env.clusterName
    match env.subResult with
    | GetResult.notFound _ =>
      match env.createSubErr with
      | some e => ⟨[Action.createSub desiredSubscription], SyncOutcome.errored e, cache⟩
      | none => ⟨[Action.createSub desiredSubscription], SyncOutcome.ok, cache⟩
    | GetResult.failed e => ⟨[], SyncOutcome.errored e, cache⟩
    | GetResult.found subscription =>
      match EnsureManifestWork subscription desiredSubscription with
      | Except.error e => ⟨[], SyncOutcome.errored e, cache⟩
      | Except.ok updated =>
        if updated then
          match env.updateSubErr with
          | some e =>
            ⟨[Action.updateSub
                { desiredSubscription with resourceVersion := subscription.resourceVersion }],
              SyncOutcome.errored e, cache⟩
          | none =>
            afterStage1 cache env managedCluster subscription
              [Action.updateSub
                { desiredSubscription with resourceVersion := subscription.resourceVersion }]
        else afterStage1 cache env managedCluster subscription []

lemma scanFeedback_matched : ∀ {l : List FeedbackValue},
    scanFeedback l = GateScan.matched →
    ∃ v ∈ l, v.name = "state" ∧ v.value = some "AtLatestKnown" := by
  intro l
  induction l with
  | nil => intro h; simp [scanFeedback] at h
  | cons v rest ih =>
    intro h
    rw [scanFeedback] at h
    split at h
    · next hn =>
      split at h
      · exact absurd h (by simp)
      · next s hv =>
        split at h
        · next hs =>
          exact ⟨v, List.mem_cons_self v rest, eq_of_beq hn, by rw [hv, eq_of_beq hs]⟩
        · obtain ⟨w, hw, h1, h2⟩ := ih h
          exact ⟨w, List.mem_cons_of_mem v hw, h1, h2⟩
    · obtain ⟨w, hw, h1, h2⟩ := ih h
      exact ⟨w, List.mem_cons_of_mem v hw, h1, h2⟩

lemma scanFeedback_fault : ∀ {l : List FeedbackValue},
    scanFeedback l = GateScan.fault →
    ∃ v ∈ l, v.name = "state" ∧ v.value = none := by
  intro l
  induction l with
  | nil => intro h; simp [scanFeedback] at h
  | cons v rest ih =>
    intro h
    rw [scanFeedback] at h
    split at h
    · next hn =>
      split at h
      · next hv => exact ⟨v, List.mem_cons_self v rest, eq_of_beq hn, hv⟩
      · split at h
        · exact absurd h (by simp)
        · obtain ⟨w, hw, h1, h2⟩ := ih h
          exact ⟨w, List.mem_cons_of_mem v hw, h1, h2⟩
    · obtain ⟨w, hw, h1, h2⟩ := ih h
      exact ⟨w, List.mem_cons_of_mem v hw, h1, h2⟩

lemma scanManifests_matched : ∀ {l : List ManifestCondition},
    scanManifests l = GateScan.matched →
    ∃ c ∈ l, c.kind = "Subscription" ∧ scanFeedback c.values = GateScan.matched := by
  intro l
  induction l with
  | nil => intro h; simp [scanManifests] at h
  | cons c rest ih =>
    intro h
    rw [scanManifests] at h
    split at h
    · next hk =>
      split at h
      · next hs => exact ⟨c, List.mem_cons_self c rest, eq_of_beq hk, hs⟩
      · exact absurd h (by simp)
      · obtain ⟨w, hw, h1, h2⟩ := ih h
        exact ⟨w, List.mem_cons_of_mem c hw, h1, h2⟩
    · obtain ⟨w, hw, h1, h2⟩ := ih h
      exact ⟨w, List.mem_cons_of_mem c hw, h1, h2⟩

lemma scanManifests_fault : ∀ {l : List ManifestCondition},
    scanManifests l = GateScan.fault →
    ∃ c ∈ l, c.kind = "Subscription" ∧ scanFeedback c.values = GateScan.fault := by
  intro l
  induction l with
  | nil => intro h; simp [scanManifests] at h
  | cons c rest ih =>
    intro h
    rw [scanManifests] at h
    split at h
    · next hk =>
      split at h
      · exact absurd h (by simp)
      · next hs => exact ⟨c, List.mem_cons_self c rest, eq_of_beq hk, hs⟩
      · obtain ⟨w, hw, h1, h2⟩ := ih h
        exact ⟨w, List.mem_cons_of_mem c hw, h1, h2⟩
    · obtain ⟨w, hw, h1, h2⟩ := ih h
      exact ⟨w, List.mem_cons_of_mem c hw, h1, h2⟩

lemma afterStage1_mem {cache : List String} {env : SyncEnv}
    {mc : ManagedCluster} {sub : ManifestWork} {pre : List Action} {a : Action}
    (ha : a ∈ (afterStage1 cache env mc sub pre).actions) :
    a ∈ pre ∨ scanManifests sub.manifests = GateScan.matched := by
  unfold afterStage1 at ha
  split at ha
  · next hscan => exact Or.inr hscan
  · exact Or.inl ha
  · exact Or.inl ha

/-- Concrete fixture: a membership object for cluster1 with nil annotations. -/
def cluster1 : ManagedCluster := ⟨"cluster1", none⟩

/-- Concrete fixture: a Stage-1 work object whose payload already equals the
desired one and whose status feedback reports `state = AtLatestKnown`. -/
def subGate : ManifestWork :=
  { name := "cluster1-" ++ HOH_HUB_CLUSTER_SUBSCRIPTION
    ns := "cluster1"
    resourceVersion := "41"
    spec := "hub-subscription-payload"
    manifests := [⟨"Subscription", [⟨"state", some "AtLatestKnown"⟩]⟩] }

/-- Concrete fixture: the default Stage-2 work object for cluster1. -/
def mchDefault1 : ManifestWork :=
  { name := "cluster1-" ++ HOH_HUB_CLUSTER_MCH
    ns := "cluster1"
    resourceVersion := ""
    spec := "default-mch-payload"
    manifests := [] }

/-- Concrete fixture: the gate passes, the Stage-2 work object is absent, and
all write calls would succeed. -/
def envGate : SyncEnv :=
  ⟨"cluster1", GetResult.found cluster1, GetResult.found subGate,
    GetResult.notFound "manifestworks cluster1-hoh-hub-cluster-mch not found",
    none, none, none, none⟩

/-- C1: staging invariant — a Stage-2 (MCH) create or update call is issued
by `sync` only when the Stage-1 work object read in the same invocation was
found and its status feedback contains, under a manifest of kind
"Subscription", a value named "state" whose string value is "AtLatestKnown". -/
theorem stage2_gated (cache : List String) (env : SyncEnv) (a : Action)
    (ha : a ∈ (sync cache env).actions) (h2 : isStage2 a = true) :
    ∃ sub, env.subResult = GetResult.found sub ∧
      ∃ c ∈ sub.manifests, c.kind = "Subscription" ∧
        ∃ v ∈ c.values, v.name = "state" ∧ v.value = some "AtLatestKnown" := by
  rcases env with ⟨n, cr, sr, mr, e1, e2, e3, e4⟩
  cases cr with
  | notFound m => simp [sync] at ha
  | failed e => simp [sync] at ha
  | found mc =>
    cases sr with
    | notFound m =>
      cases e1 <;> simp [sync] at ha <;> rw [ha] at h2 <;> simp [isStage2] at h2
    | failed e => simp [sync] at ha
    | found sub =>
      refine ⟨sub, rfl, ?_⟩
      have hmat : scanManifests sub.manifests = GateScan.matched := by
        simp only [sync, EnsureManifestWork] at ha
        split at ha
        · cases e2 with
          | some e =>
            simp at ha
            rw [ha] at h2
            simp [isStage2] at h2
          | none =>
            rcases afterStage1_mem ha with hpre | hmat
            · simp at hpre
              rw [hpre] at h2
              simp [isStage2] at h2
            · exact hmat
        · rcases afterStage1_mem ha with hpre | hmat
          · simp at hpre
          · exact hmat
      obtain ⟨c, hc, hk, hf⟩ := scanManifests_matched hmat
      obtain ⟨v, hv, hn, hval⟩ := scanFeedback_matched hf
      exact ⟨c, hc, hk, v, hv, hn, hval⟩

/-- Witness for C1 at a concrete input: the gate passes and `sync` issues the
Stage-2 create, so the existential conclusion holds. -/
theorem stage2_gated_witness :
    (Action.createMCH mchDefault1 ∈ (sync [] envGate).actions ∧
        isStage2 (Action.createMCH mchDefault1) = true) ∧
    ∃ sub, envGate.subResult = GetResult.found sub ∧
      ∃ c ∈ sub.manifests, c.kind = "Subscription" ∧
        ∃ v ∈ c.values, v.name = "state" ∧ v.value = some "AtLatestKnown" :=
  ⟨⟨by decide, rfl⟩, stage2_gated [] envGate (Action.createMCH mchDefault1) (by decide) rfl⟩

/-- C2 evaluated at the failing input: with the membership present, the
Stage-1 status gate passing, the Stage-2 lookup returning not-found and the
create call succeeding, `sync` issues the Stage-2 create with the desired
content but then returns the not-found lookup error — the create call's
`_, err :=` at controller.go:142 shadows the outer `err` from the lookup at
controller.go:139, so `if err != nil` at controller.go:148 returns the
not-found error — and the ensure comparison at controller.go:152 is never
reached. -/
theorem mch_notfound_error_surfaced :
    sync [] envGate =
      ⟨[Action.createMCH mchDefault1],
        SyncOutcome.errored "manifestworks cluster1-hoh-hub-cluster-mch not found",
        []⟩ := by
  decide

lemma stage2Run_not_panicked (cache : List String) (env : SyncEnv)
    (mc : ManagedCluster) (pre : List Action) :
    (stage2Run cache env mc pre).outcome ≠ SyncOutcome.panicked := by
  unfold stage2Run
  split
  · simp
  · split
    · split <;> simp
    · simp
    · split
      · simp
      · split
        · split <;> simp
        · simp

lemma sync_panicked {cache : List String} {env : SyncEnv}
    (h : (sync cache env).outcome = SyncOutcome.panicked) :
    ∃ sub, env.subResult = GetResult.found sub ∧
      scanManifests sub.manifests = GateScan.fault := by
  rcases env with ⟨n, cr, sr, mr, e1, e2, e3, e4⟩
  cases cr with
  | notFound m => simp [sync] at h
  | failed e => simp [sync] at h
  | found mc =>
    cases sr with
    | notFound m => cases e1 <;> simp [sync] at h
    | failed e => simp [sync] at h
    | found sub =>
      refine ⟨sub, rfl, ?_⟩
      simp only [sync, EnsureManifestWork] at h
      split at h
      · split at h
        · simp at h
        · unfold afterStage1 at h
          split at h
          · exact absurd h (stage2Run_not_panicked _ _ _ _)
          · next hscan => exact hscan
          · simp at h
      · unfold afterStage1 at h
        split at h
        · exact absurd h (stage2Run_not_panicked _ _ _ _)
        · next hscan => exact hscan
        · simp at h

/-- Concrete fixture: a Stage-1 work object whose status carries a feedback
value named "state" with a nil string pointer. -/
def subNilState : ManifestWork :=
  { name := "cluster1-" ++ HOH_HUB_CLUSTER_SUBSCRIPTION
    ns := "cluster1"
    resourceVersion := "7"
    spec := "hub-subscription-payload"
    manifests := [⟨"Subscription", [⟨"state", none⟩]⟩] }

/-- Concrete fixture: environment whose Stage-1 status triggers the nil
dereference. -/
def envNilDeref : SyncEnv :=
  ⟨"cluster1", GetResult.found cluster1, GetResult.found subNilState,
    GetResult.notFound "nf", none, none, none, none⟩

/-- C3: the stage-2 gate dereferences the `Value.String` pointer of each
feedback value named "state" under a "Subscription" manifest with no nil
check; whenever every such value is non-nil, `sync` never panics, and the
non-nil precondition is required: on a status carrying a nil-valued "state"
feedback, `sync` panics. -/
theorem gate_deref_totality :
    (∀ (cache : List String) (env : SyncEnv) (sub : ManifestWork),
      env.subResult = GetResult.found sub →
      (∀ c ∈ sub.manifests, c.kind = "Subscription" →
        ∀ v ∈ c.values, v.name = "state" → v.value ≠ none) →
      (sync cache env).outcome ≠ SyncOutcome.panicked) ∧
    (sync [] envNilDeref).outcome = SyncOutcome.panicked := by
  constructor
  · intro cache env sub hsub hnn h
    obtain ⟨sub', hsub', hscan⟩ := sync_panicked h
    rw [hsub] at hsub'
    injection hsub' with he
    subst he
    obtain ⟨c, hc, hk, hf⟩ := scanManifests_fault hscan
    obtain ⟨v, hv, hn, hval⟩ := scanFeedback_fault hf
    exact hnn c hc hk v hv hn hval
  · decide

/-- Witness for C3's universally quantified part at a concrete input: the
gate-passing status has only non-nil "state" values, and `sync` does not
panic on it. -/
theorem gate_deref_totality_witness :
    (envGate.subResult = GetResult.found subGate ∧
      ∀ c ∈ subGate.manifests, c.kind = "Subscription" →
        ∀ v ∈ c.values, v.name = "state" → v.value ≠ none) ∧
    (sync [] envGate).outcome ≠ SyncOutcome.panicked :=
  ⟨⟨rfl, by decide⟩, gate_deref_totality.1 [] envGate subGate rfl (by decide)⟩

/-- C4: when the existing Stage-1 object diverges from the desired one (the
ensure comparison signals a write) and the update call succeeds, `sync`
issues the Stage-1 update carrying the desired content and the existing
object's resource version, and then continues — no early return — into
`afterStage1`, the stage-2 gate, applied to the Stage-1 object exactly as
read before the update: the update call does not refresh the status
snapshot this invocation acts on. -/
theorem stage1_update_then_stale_gate (cache : List String) (n : String)
    (mc : ManagedCluster) (sub : ManifestWork) (mr : GetResult ManifestWork)
    (e1 e3 e4 : Option String)
    (hdiv : EnsureManifestWork sub (CreateSubManifestwork n) = Except.ok true) :
    sync cache ⟨n, GetResult.found mc, GetResult.found sub, mr, e1, none, e3, e4⟩ =
      afterStage1 cache ⟨n, GetResult.found mc, GetResult.found sub, mr, e1, none, e3, e4⟩
        mc sub
        [Action.updateSub
          { CreateSubManifestwork n with resourceVersion := sub.resourceVersion }] := by
  simp only [EnsureManifestWork, Except.ok.injEq] at hdiv
  simp [sync, EnsureManifestWork, hdiv]

/-- Concrete fixture: a Stage-1 work object whose payload diverges from the
desired one and whose status does not pass the gate. -/
def subDiverged : ManifestWork :=
  { name := "cluster1-" ++ HOH_HUB_CLUSTER_SUBSCRIPTION
    ns := "cluster1"
    resourceVersion := "17"
    spec := "stale-subscription-payload"
    manifests := [⟨"Subscription", [⟨"state", some "Progressing"⟩]⟩] }

/-- Witness for C4 at a concrete diverging input. -/
theorem stage1_update_then_stale_gate_witness :
    EnsureManifestWork subDiverged (CreateSubManifestwork "cluster1") = Except.ok true ∧
    sync [] ⟨"cluster1", GetResult.found cluster1, GetResult.found subDiverged,
        GetResult.notFound "nf", none, none, none, none⟩ =
      afterStage1 [] ⟨"cluster1", GetResult.found cluster1, GetResult.found subDiverged,
          GetResult.notFound "nf", none, none, none, none⟩
        cluster1 subDiverged
        [Action.updateSub
          { CreateSubManifestwork "cluster1" with resourceVersion := subDiverged.resourceVersion }] :=
  ⟨by rfl,
    stage1_update_then_stale_gate [] "cluster1" cluster1 subDiverged
      (GetResult.notFound "nf") none none none (by rfl)⟩

/-- C9: a not-found membership lookup ends the invocation successfully with
zero writes; any other membership lookup error is returned to the caller,
also with zero writes. -/
theorem membership_absent_benign (cache : List String) (n m : String)
    (sr mr : GetResult ManifestWork) (e1 e2 e3 e4 : Option String) :
    sync cache ⟨n, GetResult.notFound m, sr, mr, e1, e2, e3, e4⟩ =
        ⟨[], SyncOutcome.ok, cache⟩ ∧
    ∀ e, sync cache ⟨n, GetResult.failed e, sr, mr, e1, e2, e3, e4⟩ =
        ⟨[], SyncOutcome.errored e, cache⟩ :=
  ⟨rfl, fun _ => rfl⟩

lemma afterStage1_mem2 {cache : List String} {env : SyncEnv}
    {mc : ManagedCluster} {sub : ManifestWork} {pre : List Action} {a : Action}
    (ha : a ∈ (afterStage1 cache env mc sub pre).actions) :
    a ∈ pre ∨ a ∈ (stage2Run cache env mc pre).actions := by
  unfold afterStage1 at ha
  split at ha
  · exact Or.inr ha
  · exact Or.inl ha
  · exact Or.inl ha

lemma stage2Run_mem {cache : List String} {env : SyncEnv} {mc : ManagedCluster}
    {pre : List Action} {a : Action}
    (ha : a ∈ (stage2Run cache env mc pre).actions) :
    a ∈ pre ∨
      ∃ dm, CreateMCHManifestwork env.clusterName (userMCH mc) = Except.ok dm ∧
        (a = Action.createMCH dm ∨
          ∃ mch, env.mchResult = GetResult.found mch ∧
            a = Action.updateMCH { dm with resourceVersion := mch.resourceVersion }) := by
  unfold stage2Run at ha
  split at ha
  · exact Or.inl ha
  · next dm hdm =>
    split at ha
    · split at ha
      · rcases List.mem_append.mp ha with h | h
        · exact Or.inl h
        · simp at h
          exact Or.inr ⟨dm, hdm, Or.inl h⟩
      · rcases List.mem_append.mp ha with h | h
        · exact Or.inl h
        · simp at h
          exact Or.inr ⟨dm, hdm, Or.inl h⟩
    · exact Or.inl ha
    · next mch hmch =>
      simp only [EnsureManifestWork] at ha
      split at ha
      · split at ha
        · rcases List.mem_append.mp ha with h | h
          · exact Or.inl h
          · simp at h
            exact Or.inr ⟨dm, hdm, Or.inr ⟨mch, hmch, h⟩⟩
        · rcases List.mem_append.mp ha with h | h
          · exact Or.inl h
          · simp at h
            exact Or.inr ⟨dm, hdm, Or.inr ⟨mch, hmch, h⟩⟩
      · exact Or.inl ha

lemma sync_mem {cache : List String} {env : SyncEnv} {a : Action}
    (ha : a ∈ (sync cache env).actions) :
    a = Action.createSub (CreateSubManifestwork env.clusterName) ∨
    (∃ sub, env.subResult = GetResult.found sub ∧
      a = Action.updateSub { CreateSubManifestwork env.clusterName with
                              resourceVersion := sub.resourceVersion }) ∨
    (∃ mc, env.clusterResult = GetResult.found mc ∧
      ∃ dm, CreateMCHManifestwork env.clusterName (userMCH mc) = Except.ok dm ∧
        (a = Action.createMCH dm ∨
          ∃ mch, env.mchResult = GetResult.found mch ∧
            a = Action.updateMCH { dm with resourceVersion := mch.resourceVersion })) := by
  rcases env with ⟨n, cr, sr, mr, e1, e2, e3, e4⟩
  cases cr with
  | notFound m => simp [sync] at ha
  | failed e => simp [sync] at ha
  | found mc =>
    cases sr with
    | notFound m =>
      cases e1 <;> simp [sync] at ha <;> exact Or.inl ha
    | failed e => simp [sync] at ha
    | found sub =>
      simp only [sync, EnsureManifestWork] at ha
      split at ha
      · split at ha
        · simp at ha
          exact Or.inr (Or.inl ⟨sub, rfl, ha⟩)
        · rcases afterStage1_mem2 ha with hpre | hst
          · simp at hpre
            exact Or.inr (Or.inl ⟨sub, rfl, hpre⟩)
          · rcases stage2Run_mem hst with hpre | ⟨dm, hdm, hrest⟩
            · simp at hpre
              exact Or.inr (Or.inl ⟨sub, rfl, hpre⟩)
            · exact Or.inr (Or.inr ⟨mc, rfl, dm, hdm, hrest⟩)
      · rcases afterStage1_mem2 ha with hpre | hst
        · simp at hpre
        · rcases stage2Run_mem hst with hpre | ⟨dm, hdm, hrest⟩
          · simp at hpre
          · exact Or.inr (Or.inr ⟨mc, rfl, dm, hdm, hrest⟩)

lemma stage2Run_cache_eq (cache : List String) (env : SyncEnv)
    (mc : ManagedCluster) (pre : List Action) :
    stage2Run cache env mc pre = { stage2Run [] env mc pre with cache := cache } := by
  unfold stage2Run
  repeat' split
  all_goals rfl

lemma afterStage1_cache_eq (cache : List String) (env : SyncEnv)
    (mc : ManagedCluster) (sub : ManifestWork) (pre : List Action) :
    afterStage1 cache env mc sub pre = { afterStage1 [] env mc sub pre with cache := cache } := by
  unfold afterStage1
  split
  · exact stage2Run_cache_eq cache env mc pre
  · rfl
  · rfl

lemma sync_cache_eq (cache : List String) (env : SyncEnv) :
    sync cache env = { sync [] env with cache := cache } := by
  rcases env with ⟨n, cr, sr, mr, e1, e2, e3, e4⟩
  cases cr with
  | notFound m => rfl
  | failed e => rfl
  | found mc =>
    cases sr with
    | notFound m => cases e1 <;> rfl
    | failed e => rfl
    | found sub =>
      simp only [sync, EnsureManifestWork]
      split
      · cases e2 with
        | some e => rfl
        | none => exact afterStage1_cache_eq cache _ _ _ _
      · exact afterStage1_cache_eq cache _ _ _ _

/-- C7: every update call issued by `sync` — Stage-1 and Stage-2 alike —
carries exactly the resource version of the existing object as read at
lookup time in the same invocation (controller.go:116 and :157), never any
other token. -/
theorem update_carries_read_rv (cache : List String) (env : SyncEnv) (w : ManifestWork) :
    (Action.updateSub w ∈ (sync cache env).actions →
      ∃ sub, env.subResult = GetResult.found sub ∧
        w.resourceVersion = sub.resourceVersion) ∧
    (Action.updateMCH w ∈ (sync cache env).actions →
      ∃ mch, env.mchResult = GetResult.found mch ∧
        w.resourceVersion = mch.resourceVersion) := by
  constructor
  · intro ha
    rcases sync_mem ha with h | ⟨sub, hs, h⟩ | ⟨mc, hmc, dm, hdm, h | ⟨mch, hm, h⟩⟩
    · simp at h
    · injection h with h'
      exact ⟨sub, hs, by rw [h']⟩
    · simp at h
    · simp at h
  · intro ha
    rcases sync_mem ha with h | ⟨sub, hs, h⟩ | ⟨mc, hmc, dm, hdm, h | ⟨mch, hm, h⟩⟩
    · simp at h
    · simp at h
    · simp at h
    · injection h with h'
      exact ⟨mch, hm, by rw [h']⟩

/-- Concrete fixture: a Stage-1 work object that diverges from the desired
content while its status passes the gate. -/
def subDivergedGate : ManifestWork :=
  { name := "cluster1-" ++ HOH_HUB_CLUSTER_SUBSCRIPTION
    ns := "cluster1"
    resourceVersion := "23"
    spec := "stale-subscription-payload"
    manifests := [⟨"Subscription", [⟨"state", some "AtLatestKnown"⟩]⟩] }

/-- Concrete fixture: a Stage-2 work object that diverges from the desired
content. -/
def mchDiverged : ManifestWork :=
  { name := "cluster1-" ++ HOH_HUB_CLUSTER_MCH
    ns := "cluster1"
    resourceVersion := "99"
    spec := "stale-mch-payload"
    manifests := [] }

/-- Concrete fixture: both stages present and diverging, gate passing. -/
def envBothUpdates : SyncEnv :=
  ⟨"cluster1", GetResult.found cluster1, GetResult.found subDivergedGate,
    GetResult.found mchDiverged, none, none, none, none⟩

/-- Witness for C7 at a concrete input on which `sync` issues both updates:
each carries the resource version read for the corresponding object. -/
theorem update_carries_read_rv_witness :
    (Action.updateSub { CreateSubManifestwork "cluster1" with resourceVersion := "23" }
        ∈ (sync [] envBothUpdates).actions ∧
      ∃ sub, envBothUpdates.subResult = GetResult.found sub ∧
        ({ CreateSubManifestwork "cluster1" with
            resourceVersion := "23" } : ManifestWork).resourceVersion = sub.resourceVersion) ∧
    (Action.updateMCH { mchDefault1 with resourceVersion := "99" }
        ∈ (sync [] envBothUpdates).actions ∧
      ∃ mch, envBothUpdates.mchResult = GetResult.found mch ∧
        ({ mchDefault1 with
            resourceVersion := "99" } : ManifestWork).resourceVersion = mch.resourceVersion) :=
  ⟨⟨by decide,
      (update_carries_read_rv [] envBothUpdates
        { CreateSubManifestwork "cluster1" with resourceVersion := "23" }).1 (by decide)⟩,
    ⟨by decide,
      (update_carries_read_rv [] envBothUpdates
        { mchDefault1 with resourceVersion := "99" }).2 (by decide)⟩⟩

/-- Modelled from the spec: the content fingerprint that, per the claimed
EnsureEngine contract, keys the comparison cache for a pair of existing and
desired objects. -/
def fingerprint (existing desired : ManifestWork) : String :=
  existing.name ++ "|" ++ existing.spec ++ "|" ++ desired.name ++ "|" ++ desired.spec

/-- C10 counterexample: the claim that the ensure comparison invoked by
`sync` reuses the controller's cross-invocation cache — so that after an
invocation that reaches the comparison the cache holds the fingerprint of
(existing, desired) — is false: at a concrete input that performs the
comparison, the cache after `sync` is still empty.  In the source, `sync`
calls `EnsureManifestWork(subscription, desiredSubscription)` with only the
two objects (controller.go:111, :152); `c.cache` is initialized at
controller.go:41 and never used. -/
theorem ensure_cache_claim_false :
    ¬ ∀ (cache : List String) (env : SyncEnv) (mc : ManagedCluster) (sub : ManifestWork),
        env.clusterResult = GetResult.found mc →
        env.subResult = GetResult.found sub →
        fingerprint sub (CreateSubManifestwork env.clusterName) ∈ (sync cache env).cache := by
  intro hclaim
  have h := hclaim [] envGate cluster1 subGate rfl rfl
  revert h
  decide

/-- C10 amended: the controller's comparison cache is never consulted nor
modified by `sync`: it passes through every invocation unchanged, and the
write calls and outcome are independent of its contents. -/
theorem sync_cache_unused (cache cache' : List String) (env : SyncEnv) :
    (sync cache env).cache = cache ∧
    (sync cache env).actions = (sync cache' env).actions ∧
    (sync cache env).outcome = (sync cache' env).outcome := by
  rw [sync_cache_eq cache env, sync_cache_eq cache' env]
  exact ⟨rfl, rfl, rfl⟩

/-- The hub's store as one reconcile key sees it: the membership object and
the two work objects of that cluster's namespace, each possibly absent. -/
structure Store where
  clusterName : String
  cluster : Option ManagedCluster
  sub : Option ManifestWork
  mch : Option ManifestWork
deriving DecidableEq

/-- The environment `sync` runs against when the listers serve exactly the
store's content and every write call succeeds. -/
def envOfStore (s : Store) : SyncEnv :=
  { clusterName := s.clusterName
    clusterResult := match s.cluster with
      | none => GetResult.notFound "managedcluster not found"
      | some c => GetResult.found c
    subResult := match s.sub with
      | none => GetResult.notFound "subscription manifestwork not found"
      | some w => GetResult.found w
    mchResult := match s.mch with
      | none => GetResult.notFound "mch manifestwork not found"
      | some w => GetResult.found w
    createSubErr := none
    updateSubErr := none
    createMCHErr := none
    updateMCHErr := none }

/-- Effect of one successful write call on the store: a create stores the
object as sent; an update stores the sent object but — as the API server
does — keeps the stored object's status subresource and bumps the resource
version. -/
def applyAction (s : Store) : Action → Store
  | Action.createSub w => { s with sub := some w }
  | Action.updateSub w =>
    { s with sub := some { w with
        manifests := (s.sub.map ManifestWork.manifests).getD []
        resourceVersion := w.resourceVersion ++ "+" } }
  | Action.createMCH w => { s with mch := some w }
  | Action.updateMCH w =>
    { s with mch := some { w with
        manifests := (s.mch.map ManifestWork.manifests).getD []
        resourceVersion := w.resourceVersion ++ "+" } }

/-- Applies a list of write calls to the store, in order. -/
def applyActions (s : Store) (acts : List Action) : Store :=
  acts.foldl applyAction s

/-- Helper: an invocation of `sync` issues no write when the Stage-1 object
present already carries the desired payload and, should the gate match and
the Stage-2 build succeed, the Stage-2 object present already carries the
desired payload. -/
lemma second_run_clean (n : String) (mc : ManagedCluster) (sub2 : ManifestWork)
    (mo : Option ManifestWork)
    (hsub : sub2.spec = (CreateSubManifestwork n).spec)
    (hmch : ∀ dm, scanManifests sub2.manifests = GateScan.matched →
      CreateMCHManifestwork n (userMCH mc) = Except.ok dm →
      ∃ m2, mo = some m2 ∧ m2.spec = dm.spec) :
    (sync [] (envOfStore ⟨n, some mc, some sub2, mo⟩)).actions = [] := by
  simp only [envOfStore, sync, EnsureManifestWork]
  rw [hsub]
  simp only [bne_self_eq_false, Bool.false_eq_true, if_false]
  unfold afterStage1
  split
  · next hscan =>
    unfold stage2Run
    split
    · rfl
    · next dm hcm =>
      obtain ⟨m2, hm2, hms⟩ := hmch dm hscan hcm
      subst hm2
      simp only [EnsureManifestWork]
      rw [hms]
      simp
  · rfl
  · rfl

/-- C8: idempotence — running `sync` once against a store, applying the
writes it issued, and running `sync` again with no other change produces
zero create/update calls on the second invocation. -/
theorem sync_idempotent (s : Store) :
    (sync [] (envOfStore (applyActions s (sync [] (envOfStore s)).actions))).actions = [] := by
  obtain ⟨n, cl, sb, mh⟩ := s
  cases cl with
  | none => rfl
  | some mc =>
    cases sb with
    | none =>
      rw [show (sync [] (envOfStore ⟨n, some mc, none, mh⟩)).actions
            = [Action.createSub (CreateSubManifestwork n)] from rfl]
      refine second_run_clean n mc _ _ rfl ?_
      intro dm hscan hcm
      simp [CreateSubManifestwork, scanManifests] at hscan
    | some w =>
      by_cases hspec : w.spec = (CreateSubManifestwork n).spec
      · -- Stage 1 already converged: no update issued
        cases hscan : scanManifests w.manifests with
        | fault =>
          have hfirst : (sync [] (envOfStore ⟨n, some mc, some w, mh⟩)).actions = [] := by
            simp only [envOfStore, sync, EnsureManifestWork]
            rw [hspec]
            simp only [bne_self_eq_false, Bool.false_eq_true, if_false]
            unfold afterStage1
            rw [hscan]
          rw [hfirst]
          refine second_run_clean n mc _ _ hspec ?_
          intro dm hs hcm
          have hs2 : scanManifests w.manifests = GateScan.matched := hs
          rw [hscan] at hs2
          cases hs2
        | noMatch =>
          have hfirst : (sync [] (envOfStore ⟨n, some mc, some w, mh⟩)).actions = [] := by
            simp only [envOfStore, sync, EnsureManifestWork]
            rw [hspec]
            simp only [bne_self_eq_false, Bool.false_eq_true, if_false]
            unfold afterStage1
            rw [hscan]
          rw [hfirst]
          refine second_run_clean n mc _ _ hspec ?_
          intro dm hs hcm
          have hs2 : scanManifests w.manifests = GateScan.matched := hs
          rw [hscan] at hs2
          cases hs2
        | matched =>
          cases hcm : CreateMCHManifestwork n (userMCH mc) with
          | error e =>
            have hfirst : (sync [] (envOfStore ⟨n, some mc, some w, mh⟩)).actions = [] := by
              simp only [envOfStore, sync, EnsureManifestWork]
              rw [hspec]
              simp only [bne_self_eq_false, Bool.false_eq_true, if_false]
              unfold afterStage1
              rw [hscan]
              unfold stage2Run
              rw [hcm]
            rw [hfirst]
            refine second_run_clean n mc _ _ hspec ?_
            intro dm hs hcm'
            rw [hcm] at hcm'
            cases hcm'
          | ok dm =>
            cases mh with
            | none =>
              have hfirst : (sync [] (envOfStore ⟨n, some mc, some w, none⟩)).actions
                  = [Action.createMCH dm] := by
                simp only [envOfStore, sync, EnsureManifestWork]
                rw [hspec]
                simp only [bne_self_eq_false, Bool.false_eq_true, if_false]
                unfold afterStage1
                rw [hscan]
                unfold stage2Run
                rw [hcm]
                rfl
              rw [hfirst]
              refine second_run_clean n mc _ _ hspec ?_
              intro dm' hs hcm'
              rw [hcm] at hcm'
              injection hcm' with he
              exact ⟨dm, rfl, by rw [he]⟩
            | some m =>
              by_cases hm : m.spec = dm.spec
              · have hfirst : (sync [] (envOfStore ⟨n, some mc, some w, some m⟩)).actions
                    = [] := by
                  simp only [envOfStore, sync, EnsureManifestWork]
                  rw [hspec]
                  simp only [bne_self_eq_false, Bool.false_eq_true, if_false]
                  unfold afterStage1
                  rw [hscan]
                  unfold stage2Run
                  rw [hcm]
                  simp only [EnsureManifestWork]
                  rw [hm]
                  simp only [bne_self_eq_false, Bool.false_eq_true, if_false]
                rw [hfirst]
                refine second_run_clean n mc _ _ hspec ?_
                intro dm' hs hcm'
                rw [hcm] at hcm'
                injection hcm' with he
                exact ⟨m, rfl, by rw [hm, he]⟩
              · have hb : (m.spec != dm.spec) = true := bne_iff_ne.mpr hm
                have hfirst : (sync [] (envOfStore ⟨n, some mc, some w, some m⟩)).actions
                    = [Action.updateMCH { dm with resourceVersion := m.resourceVersion }] := by
                  simp only [envOfStore, sync, EnsureManifestWork]
                  rw [hspec]
                  simp only [bne_self_eq_false, Bool.false_eq_true, if_false]
                  unfold afterStage1
                  rw [hscan]
                  unfold stage2Run
                  rw [hcm]
                  simp only [EnsureManifestWork]
                  rw [hb]
                  rfl
                rw [hfirst]
                refine second_run_clean n mc _ _ hspec ?_
                intro dm' hs hcm'
                rw [hcm] at hcm'
                injection hcm' with he
                exact ⟨_, rfl, by rw [← he]⟩
      · -- Stage 1 diverges: update issued first
        have hb1 : (w.spec != (CreateSubManifestwork n).spec) = true := bne_iff_ne.mpr hspec
        cases hscan : scanManifests w.manifests with
        | fault =>
          have hfirst : (sync [] (envOfStore ⟨n, some mc, some w, mh⟩)).actions
              = [Action.updateSub { CreateSubManifestwork n with
                  resourceVersion := w.resourceVersion }] := by
            simp only [envOfStore, sync, EnsureManifestWork]
            rw [hb1]
            unfold afterStage1
            rw [hscan]
            rfl
          rw [hfirst]
          refine second_run_clean n mc _ _ rfl ?_
          intro dm hs hcm
          have hs2 : scanManifests w.manifests = GateScan.matched := hs
          rw [hscan] at hs2
          cases hs2
        | noMatch =>
          have hfirst : (sync [] (envOfStore ⟨n, some mc, some w, mh⟩)).actions
              = [Action.updateSub { CreateSubManifestwork n with
                  resourceVersion := w.resourceVersion }] := by
            simp only [envOfStore, sync, EnsureManifestWork]
            rw [hb1]
            unfold afterStage1
            rw [hscan]
            rfl
          rw [hfirst]
          refine second_run_clean n mc _ _ rfl ?_
          intro dm hs hcm
          have hs2 : scanManifests w.manifests = GateScan.matched := hs
          rw [hscan] at hs2
          cases hs2
        | matched =>
          cases hcm : CreateMCHManifestwork n (userMCH mc) with
          | error e =>
            have hfirst : (sync [] (envOfStore ⟨n, some mc, some w, mh⟩)).actions
                = [Action.updateSub { CreateSubManifestwork n with
                    resourceVersion := w.resourceVersion }] := by
              simp only [envOfStore, sync, EnsureManifestWork]
              rw [hb1]
              unfold afterStage1
              rw [hscan]
              unfold stage2Run
              rw [hcm]
              rfl
            rw [hfirst]
            refine second_run_clean n mc _ _ rfl ?_
            intro dm hs hcm'
            rw [hcm] at hcm'
            cases hcm'
          | ok dm =>
            cases mh with
            | none =>
              have hfirst : (sync [] (envOfStore ⟨n, some mc, some w, none⟩)).actions
                  = [Action.updateSub { CreateSubManifestwork n with
                      resourceVersion := w.resourceVersion },
                     Action.createMCH dm] := by
                simp only [envOfStore, sync, EnsureManifestWork]
                rw [hb1]
                unfold afterStage1
                rw [hscan]
                unfold stage2Run
                rw [hcm]
                rfl
              rw [hfirst]
              refine second_run_clean n mc _ _ rfl ?_
              intro dm' hs hcm'
              rw [hcm] at hcm'
              injection hcm' with he
              exact ⟨dm, rfl, by rw [he]⟩
            | some m =>
              by_cases hm : m.spec = dm.spec
              · have hfirst : (sync [] (envOfStore ⟨n, some mc, some w, some m⟩)).actions
                    = [Action.updateSub { CreateSubManifestwork n with
                        resourceVersion := w.resourceVersion }] := by
                  simp only [envOfStore, sync, EnsureManifestWork]
                  rw [hb1]
                  unfold afterStage1
                  rw [hscan]
                  unfold stage2Run
                  rw [hcm]
                  simp only [EnsureManifestWork]
                  rw [hm]
                  simp only [bne_self_eq_false, Bool.false_eq_true, if_false]
                  rfl
                rw [hfirst]
                refine second_run_clean n mc _ _ rfl ?_
                intro dm' hs hcm'
                rw [hcm] at hcm'
                injection hcm' with he
                exact ⟨m, rfl, by rw [hm, he]⟩
              · have hb2 : (m.spec != dm.spec) = true := bne_iff_ne.mpr hm
                have hfirst : (sync [] (envOfStore ⟨n, some mc, some w, some m⟩)).actions
                    = [Action.updateSub { CreateSubManifestwork n with
                        resourceVersion := w.resourceVersion },
                       Action.updateMCH { dm with resourceVersion := m.resourceVersion }] := by
                  simp only [envOfStore, sync, EnsureManifestWork]
                  rw [hb1]
                  unfold afterStage1
                  rw [hscan]
                  unfold stage2Run
                  rw [hcm]
                  simp only [EnsureManifestWork]
                  rw [hb2]
                  rfl
                rw [hfirst]
                refine second_run_clean n mc _ _ rfl ?_
                intro dm' hs hcm'
                rw [hcm] at hcm'
                injection hcm' with he
                exact ⟨_, rfl, by rw [← he]⟩

/-- Witness for C8 at a concrete store on which the first invocation issues
both updates. -/
theorem sync_idempotent_witness :
    (sync []
      (envOfStore
        (applyActions ⟨"cluster1", some cluster1, some subDivergedGate, some mchDiverged⟩
          (sync [] (envOfStore
            ⟨"cluster1", some cluster1, some subDivergedGate, some mchDiverged⟩)).actions))).actions
      = [] :=
  sync_idempotent ⟨"cluster1", some cluster1, some subDivergedGate, some mchDiverged⟩

/-- Witness for C6 at concrete objects: an opted-out object and the reserved
local-cluster name are rejected; an ordinary membership object is admitted
with its name as key. -/
theorem membership_admission_witness :
    clusterEnqueue (some ⟨"cluster2", "", [("hoh", "disabled")]⟩) = none ∧
    clusterEnqueue (some ⟨"local-cluster", "", []⟩) = none ∧
    clusterEnqueue (some ⟨"cluster3", "", []⟩) = some "cluster3" :=
  ⟨by rw [membership_admission.1 ⟨"cluster2", "", [("hoh", "disabled")]⟩]; decide,
    by rw [membership_admission.1 ⟨"local-cluster", "", []⟩]; decide,
    by rw [membership_admission.1 ⟨"cluster3", "", []⟩]; decide⟩

/-- Witness for C5 at concrete objects: the two owned names are admitted with
the namespace as key; an unrelated work object is rejected. -/
theorem work_admission_witness :
    workEnqueue (some ⟨"cluster1-" ++ HOH_HUB_CLUSTER_SUBSCRIPTION, "cluster1", []⟩)
        = some "cluster1" ∧
    workEnqueue (some ⟨"cluster1-" ++ HOH_HUB_CLUSTER_MCH, "cluster1", []⟩)
        = some "cluster1" ∧
    workEnqueue (some ⟨"some-other-work", "cluster1", []⟩) = none :=
  ⟨by rw [work_admission.1 ⟨"cluster1-" ++ HOH_HUB_CLUSTER_SUBSCRIPTION, "cluster1", []⟩]; decide,
    by rw [work_admission.1 ⟨"cluster1-" ++ HOH_HUB_CLUSTER_MCH, "cluster1", []⟩]; decide,
    by rw [work_admission.1 ⟨"some-other-work", "cluster1", []⟩]; decide⟩

/-- Witness for C9 at concrete inputs: not-found membership gives success and
zero writes; a failed membership lookup returns the error. -/
theorem membership_absent_benign_witness :
    sync [] ⟨"cluster1", GetResult.notFound "nf", GetResult.notFound "x",
        GetResult.notFound "y", none, none, none, none⟩
      = ⟨[], SyncOutcome.ok, []⟩ ∧
    sync [] ⟨"cluster1", GetResult.failed "etcd unavailable", GetResult.notFound "x",
        GetResult.notFound "y", none, none, none, none⟩
      = ⟨[], SyncOutcome.errored "etcd unavailable", []⟩ :=
  ⟨(membership_absent_benign [] "cluster1" "nf" (GetResult.notFound "x")
      (GetResult.notFound "y") none none none none).1,
    (membership_absent_benign [] "cluster1" "nf" (GetResult.notFound "x")
      (GetResult.notFound "y") none none none none).2 "etcd unavailable"⟩

/-- Witness for C10's amended statement at a concrete input: a pre-populated
cache passes through `sync` unchanged and does not alter its writes. -/
theorem sync_cache_unused_witness :
    (sync ["some-cached-fingerprint"] envGate).cache = ["some-cached-fingerprint"] ∧
    (sync ["some-cached-fingerprint"] envGate).actions = (sync [] envGate).actions ∧
    (sync ["some-cached-fingerprint"] envGate).outcome = (sync [] envGate).outcome :=
  sync_cache_unused ["some-cached-fingerprint"] [] envGate

end HubCluster
